import Mathlib

/-!
Shallow embedding of `src/config_manager.py` (class `ConfigManager`).

The merged Dynaconf configuration is modelled as a nested mapping `Value`
(strings, integers, booleans, nested dicts).  Python attribute access on a
missing key raises `AttributeError`; `isinstance(v, int)` is true for
booleans because `bool` is a subclass of `int` in Python.  Each validation
method of `ConfigManager` becomes a function into `Except PyErr`, and the
constructor's call sequence becomes `validate`.
-/

namespace ConfigManagerModel

/-- A value of the merged configuration: Python str, int, bool or dict. -/
inductive Value where
  | str (s : String)
  | int (n : Int)
  | bool (b : Bool)
  | dict (entries : List (String × Value))

/-- Host-language exception classes actually raised by the source. -/
inductive ExcClass where
  | valueError
  | typeError
  | fileNotFoundError
  | attributeError
deriving DecidableEq

/-- The raise sites of `ConfigManager`, with the data each message carries. -/
inductive PyErr where
  | missingKey (key : String)
  | typeMismatch (msg : String)
  | invalidSecret
  | missingFile (path : String)
  | domainMapping (missing : List String)
  | unknownDomain (domain : String)
  | attributeError (name : String)
deriving DecidableEq

/-- The Python exception class of each raise site: the source raises
`ValueError` for missing keys, the API-key check, the domain-mapping check
and the domain-presence check, `TypeError` for the five type checks, and
`FileNotFoundError` for the secrets-file check. -/
def PyErr.cls : PyErr → ExcClass
  | .missingKey _ => .valueError
  | .typeMismatch _ => .typeError
  | .invalidSecret => .valueError
  | .missingFile _ => .fileNotFoundError
  | .domainMapping _ => .valueError
  | .unknownDomain _ => .valueError
  | .attributeError _ => .attributeError

/-- The message string of each raise site, as the f-strings in the source
build it (the offending-key list of the domain-mapping error is rendered
from its payload). -/
def PyErr.msg : PyErr → String
  | .missingKey key => "Missing required config key: " ++ key
  | .typeMismatch m => m
  | .invalidSecret => "Missing or placeholder API key for cloud provider"
  | .missingFile path => "Config file not found: " ++ path
  | .domainMapping missing =>
      "Domains in DB config missing in cloud config: " ++ String.intercalate ", " missing
  | .unknownDomain domain => "No DB config for domain: " ++ domain
  | .attributeError name => "object has no " ++ name

/-- Association lookup in a dict's entry list. -/
def lookupKey : List (String × Value) → String → Option Value
  | [], _ => none
  | (k, v) :: rest, key => if k = key then some v else lookupKey rest key

/-- Python attribute/key access on a configuration value: defined on dicts,
absent otherwise. -/
def Value.attr : Value → String → Option Value
  | .dict es, key => lookupKey es key
  | _, _ => none

/-- Python `hasattr` on a configuration node. -/
def hasattr (v : Value) (key : String) : Bool :=
  (v.attr key).isSome

/-- Python attribute access `v.key`: raises `AttributeError` when absent. -/
def getAttr (v : Value) (key : String) : Except PyErr Value :=
  match v.attr key with
  | some w => .ok w
  | none => .error (.attributeError key)

/-- Chained attribute access along a path of keys. -/
def getPath (v : Value) : List String → Option Value
  | [] => some v
  | key :: rest =>
      match v.attr key with
      | some w => getPath w rest
      | none => none

/-- Python `isinstance(v, str)`. -/
def isStr : Value → Bool
  | .str _ => true
  | _ => false

/-- Python `isinstance(v, int)`: true for Python booleans too, because
`bool` is a subclass of `int` in the host language. -/
def isInt : Value → Bool
  | .int _ => true
  | .bool _ => true
  | _ => false

/-- Python `isinstance(v, bool)`. -/
def isBool : Value → Bool
  | .bool _ => true
  | _ => false

/-- Python truthiness of a configuration value. -/
def truthy : Value → Bool
  | .str s => s ≠ ""
  | .int n => n ≠ 0
  | .bool b => b
  | .dict es => ¬ es.isEmpty

/-- Python `v == "REPLACE_ME"`. -/
def isReplaceMe : Value → Bool
  | .str s => s = "REPLACE_ME"
  | _ => false

/-- The fixed secrets-file path `self.secrets_path` of the source. -/
def secrets_path : String :=
  "/home/samiksha889/project/config_manager/config/secrets.yaml"

/-- The `required_keys` list of `ConfigManager.validate_required_keys`. -/
def required_keys : List String :=
  ["cloud_details", "database_details", "model_type", "features", "cloud_secrets"]

/-- First key of a list for which `hasattr` fails on the configuration:
the loop of `validate_required_keys` raises at exactly this key. -/
def firstMissing : List String → Value → Option String
  | [], _ => none
  | key :: rest, cfg =>
      if hasattr cfg key then firstMissing rest cfg else some key

/-- `ConfigManager.validate_required_keys`: raises `ValueError` naming the
first required key that is absent at top level. -/
def validate_required_keys (cfg : Value) : Except PyErr Unit :=
  match firstMissing required_keys cfg with
  | some key => .error (.missingKey key)
  | none => .ok ()

/-- A Python attribute chain `v.k1.k2...`: raises `AttributeError` naming
the first missing component. -/
def attr_chain (v : Value) : List String → Except PyErr Value
  | [] => .ok v
  | key :: rest =>
      match v.attr key with
      | some w => attr_chain w rest
      | none => .error (.attributeError key)

/-- One `if not isinstance(<chain>, T): raise TypeError(emsg)` statement of
`validate_types`: resolve the attribute chain, then test the predicate. -/
def type_check (cfg : Value) (path : List String) (pred : Value → Bool)
    (emsg : String) : Except PyErr Unit :=
  match attr_chain cfg path with
  | .error e => .error e
  | .ok v => if pred v then .ok () else .error (.typeMismatch emsg)

/-- `ConfigManager.validate_types`: the five `isinstance` checks, in source
order.  The per-domain fields are read under the fixed literal key
`"sample_domain"`, exactly as the source writes
`self.config.database_details.sample_domain.port` and its siblings. -/
def validate_types (cfg : Value) : Except PyErr Unit := do
  type_check cfg ["model_type"] isStr "model_type must be a string"
  type_check cfg ["database_details", "sample_domain", "port"] isInt
    "Database port must be an integer"
  type_check cfg ["cloud_details", "sample_domain", "provider"] isStr
    "Provider must be a string"
  type_check cfg ["features", "enable_feature_x"] isBool
    "Feature flag must be a boolean"
  type_check cfg ["cloud_secrets", "sample_domain", "api_key"] isStr
    "API key must be a string"

/-- Python `.get(key)` on a dict-like value (raises `AttributeError` when
the receiver is not dict-like). -/
def dictGet (v : Value) (key : String) : Except PyErr (Option Value) :=
  match v with
  | .dict es => .ok (lookupKey es key)
  | _ => .error (.attributeError "get")

/-- `ConfigManager.check_api_key`: reads
`getattr(self.config.cloud_secrets, "sample_domain", \x7b\x7d).get("api_key")`
and raises `ValueError` when the result is falsy or the placeholder. -/
def check_api_key (cfg : Value) : Except PyErr Unit :=
  match getAttr cfg "cloud_secrets" with
  | .error e => .error e
  | .ok secrets =>
      match dictGet ((secrets.attr "sample_domain").getD (.dict [])) "api_key" with
      | .error e => .error e
      | .ok none => .error .invalidSecret
      | .ok (some v) =>
          if ¬ truthy v then .error .invalidSecret
          else if isReplaceMe v then .error .invalidSecret
          else .ok ()

/-- `ConfigManager.check_secrets_file`: the filesystem state at validation
time is modelled by the boolean `secretsFileExists` of the run state. -/
def check_secrets_file (secretsFileExists : Bool) : Except PyErr Unit :=
  if secretsFileExists then .ok () else .error (.missingFile secrets_path)

/-- Python `.to_dict().keys()` on a configuration node. -/
def to_dict_keys (v : Value) : Except PyErr (List String) :=
  match v with
  | .dict es => .ok (es.map (fun p => p.1))
  | _ => .error (.attributeError "to_dict")

/-- Python `set(db_domains) - set(cloud_domains)` of the source, as the
keys of the database dict that are not keys of the cloud dict (set
membership is what the source's set difference observes). -/
def missing_in_cloud (db_domains cloud_domains : List String) : List String :=
  db_domains.filter (fun k => ¬ k ∈ cloud_domains)

/-- `ConfigManager.check_domain_mappings`: fails iff some database domain
key is missing among the cloud domain keys, carrying the offending keys. -/
def check_domain_mappings (cfg : Value) : Except PyErr Unit :=
  match getAttr cfg "cloud_details" with
  | .error e => .error e
  | .ok cd =>
      match to_dict_keys cd with
      | .error e => .error e
      | .ok cloud_domains =>
          match getAttr cfg "database_details" with
          | .error e => .error e
          | .ok dd =>
              match to_dict_keys dd with
              | .error e => .error e
              | .ok db_domains =>
                  let missing := missing_in_cloud db_domains cloud_domains
                  if missing.isEmpty then .ok () else .error (.domainMapping missing)

/-- `ConfigManager.check_domain_config`: the supplied domain name must be a
key under `database_details`. -/
def check_domain_config (cfg : Value) (domain_name : String) : Except PyErr Unit :=
  match getAttr cfg "database_details" with
  | .error e => .error e
  | .ok dd =>
      if hasattr dd domain_name then .ok () else .error (.unknownDomain domain_name)

/-- The numeric logging levels the `logging` module exposes under these
upper-case attribute names (`logging.DEBUG = 10`, ..., `logging.CRITICAL =
50`); `getattr(logging, name, logging.INFO)` consults exactly this table
for level names (other module attributes are outside the model). -/
def logging_level_attr : String → Option Nat
  | "CRITICAL" => some 50
  | "FATAL" => some 50
  | "ERROR" => some 40
  | "WARNING" => some 30
  | "WARN" => some 30
  | "INFO" => some 20
  | "DEBUG" => some 10
  | "NOTSET" => some 0
  | _ => none

/-- Python `self.config.get(key, default)` on the top-level configuration. -/
def config_get (cfg : Value) (key : String) (dflt : Value) : Value :=
  (cfg.attr key).getD dflt

/-- ASCII upper-casing of one character, as Python `str.upper` does on the
ASCII level names at hand. -/
def char_upper (c : Char) : Char :=
  if 'a' ≤ c ∧ c ≤ 'z' then Char.ofNat (c.toNat - 32) else c

/-- Python `s.upper()` on a string. -/
def py_upper (s : String) : String :=
  ⟨s.data.map char_upper⟩

/-- Python `.upper()`: defined on strings, `AttributeError` otherwise. -/
def str_upper : Value → Except PyErr String
  | .str s => .ok (py_upper s)
  | _ => .error (.attributeError "upper")

/-- The level `logging.basicConfig` is given by `log_loaded_config`:
`getattr(logging, self.config.get("log_level", "INFO").upper(), logging.INFO)`. -/
def basic_config_level (cfg : Value) : Except PyErr Nat :=
  match str_upper (config_get cfg "log_level" (.str "INFO")) with
  | .error e => .error e
  | .ok log_level => .ok ((logging_level_attr log_level).getD 20)

/-- `ConfigManager.log_loaded_config`: configures the logging level, then
formats the summary line (whose f-string reads `self.config.model_type`);
the model returns the level installed on the shared sink. -/
def log_loaded_config (cfg : Value) : Except PyErr Nat :=
  match basic_config_level cfg with
  | .error e => .error e
  | .ok level =>
      match getAttr cfg "model_type" with
      | .error e => .error e
      | .ok _ => .ok level

/-- The summary values `ConfigManager.read_config` resolves and displays. -/
structure Summary where
  provider : Value
  model_type : Value
  feature_enabled : Value
  api_key : Value

/-- `ConfigManager.read_config`: resolves provider, model type, feature
flag and API key (per-domain ones under the fixed `"sample_domain"`). -/
def read_config (cfg : Value) : Except PyErr Summary := do
  let cd ← getAttr cfg "cloud_details"
  let csd ← getAttr cd "sample_domain"
  let provider ← getAttr csd "provider"
  let mt ← getAttr cfg "model_type"
  let fs ← getAttr cfg "features"
  let fx ← getAttr fs "enable_feature_x"
  let secrets ← getAttr cfg "cloud_secrets"
  let ssd ← getAttr secrets "sample_domain"
  let ak ← getAttr ssd "api_key"
  .ok ⟨provider, mt, fx, ak⟩

/-- One validation run's inputs: the caller-supplied domain name, the
merged configuration snapshot, and whether the secrets file exists on disk
at validation time. -/
structure ConfigManagerState where
  domain_name : String
  config : Value
  secretsFileExists : Bool

/-- The call sequence of `ConfigManager.__init__` after loading: each step
raises on failure, aborting the remainder. -/
def validate (st : ConfigManagerState) : Except PyErr Summary := do
  validate_required_keys st.config
  validate_types st.config
  check_api_key st.config
  check_secrets_file st.secretsFileExists
  check_domain_mappings st.config
  check_domain_config st.config st.domain_name
  let _ ← log_loaded_config st.config
  read_config st.config

/-- The six checks of the constructor, in call order. -/
def checksInOrder (st : ConfigManagerState) : List (Except PyErr Unit) :=
  [validate_required_keys st.config,
   validate_types st.config,
   check_api_key st.config,
   check_secrets_file st.secretsFileExists,
   check_domain_mappings st.config,
   check_domain_config st.config st.domain_name]

/-- The error of the first failing element of a check list, if any. -/
def firstFailure : List (Except PyErr Unit) → Option PyErr
  | [] => none
  | .ok _ :: rest => firstFailure rest
  | .error e :: _ => some e

/-! Concrete configurations used by the scenario theorems. -/

/-- The well-formed configuration of the end-to-end scenario. -/
def goodConfig : Value := .dict
  [("cloud_details", .dict [("sample_domain", .dict [("provider", .str "aws")])]),
   ("database_details", .dict [("sample_domain", .dict [("port", .int 5432)])]),
   ("model_type", .str "gpt-like"),
   ("features", .dict [("enable_feature_x", .bool true)]),
   ("cloud_secrets", .dict [("sample_domain", .dict [("api_key", .str "sk-1234567890abcdef")])])]

/-- The end-to-end scenario's run state: domain `sample_domain`, secrets
file present. -/
def goodState : ConfigManagerState := ⟨"sample_domain", goodConfig, true⟩

/-- A configuration whose `database_details.other.port` is a string while
`database_details.sample_domain.port` is an integer; every domain also has
a cloud entry and a secret. -/
def otherDomainConfig : Value := .dict
  [("cloud_details", .dict
      [("sample_domain", .dict [("provider", .str "aws")]),
       ("other", .dict [("provider", .str "gcp")])]),
   ("database_details", .dict
      [("sample_domain", .dict [("port", .int 5432)]),
       ("other", .dict [("port", .str "not-a-port")])]),
   ("model_type", .str "gpt-like"),
   ("features", .dict [("enable_feature_x", .bool true)]),
   ("cloud_secrets", .dict
      [("sample_domain", .dict [("api_key", .str "sk-1234567890abcdef")]),
       ("other", .dict [("api_key", .str "sk-fedcba0987654321")])])]

/-- A `cloud_secrets` section whose API key is the 5-character string
`"short"`. -/
def shortSecrets : Value :=
  .dict [("sample_domain", .dict [("api_key", .str "short")])]

/-- `goodConfig` with the API key replaced by the 5-character string
`"short"` (non-empty, not the placeholder, length at most 10). -/
def shortKeyConfig : Value := .dict
  [("cloud_details", .dict [("sample_domain", .dict [("provider", .str "aws")])]),
   ("database_details", .dict [("sample_domain", .dict [("port", .int 5432)])]),
   ("model_type", .str "gpt-like"),
   ("features", .dict [("enable_feature_x", .bool true)]),
   ("cloud_secrets", shortSecrets)]

/-- `goodConfig` without the `cloud_secrets` top-level key. -/
def missingSecretsConfig : Value := .dict
  [("cloud_details", .dict [("sample_domain", .dict [("provider", .str "aws")])]),
   ("database_details", .dict [("sample_domain", .dict [("port", .int 5432)])]),
   ("model_type", .str "gpt-like"),
   ("features", .dict [("enable_feature_x", .bool true)])]

/-- `goodConfig` with a string-valued database port. -/
def badPortConfig : Value := .dict
  [("cloud_details", .dict [("sample_domain", .dict [("provider", .str "aws")])]),
   ("database_details", .dict [("sample_domain", .dict [("port", .str "5432")])]),
   ("model_type", .str "gpt-like"),
   ("features", .dict [("enable_feature_x", .bool true)]),
   ("cloud_secrets", .dict [("sample_domain", .dict [("api_key", .str "sk-1234567890abcdef")])])]

/-- `goodConfig` with the placeholder API key. -/
def placeholderConfig : Value := .dict
  [("cloud_details", .dict [("sample_domain", .dict [("provider", .str "aws")])]),
   ("database_details", .dict [("sample_domain", .dict [("port", .int 5432)])]),
   ("model_type", .str "gpt-like"),
   ("features", .dict [("enable_feature_x", .bool true)]),
   ("cloud_secrets", .dict [("sample_domain", .dict [("api_key", .str "REPLACE_ME")])])]

/-- A `cloud_details` section whose only domain key is `sample_domain`. -/
def sampleOnlyCloudDetails : Value :=
  .dict [("sample_domain", .dict [("provider", .str "aws")])]

/-- A `database_details` section with domain keys `sample_domain` and
`extra_domain`. -/
def extraDbDetails : Value :=
  .dict [("sample_domain", .dict [("port", .int 5432)]),
         ("extra_domain", .dict [("port", .int 5433)])]

/-- `goodConfig` with an extra database domain `extra_domain` that has no
cloud entry: database domains are not a subset of cloud domains. -/
def extraDomainConfig : Value := .dict
  [("cloud_details", sampleOnlyCloudDetails),
   ("database_details", extraDbDetails),
   ("model_type", .str "gpt-like"),
   ("features", .dict [("enable_feature_x", .bool true)]),
   ("cloud_secrets", .dict [("sample_domain", .dict [("api_key", .str "sk-1234567890abcdef")])])]

/-- `goodConfig` extended with a non-string `log_level` value. -/
def intLogLevelConfig : Value := .dict
  [("cloud_details", .dict [("sample_domain", .dict [("provider", .str "aws")])]),
   ("database_details", .dict [("sample_domain", .dict [("port", .int 5432)])]),
   ("model_type", .str "gpt-like"),
   ("features", .dict [("enable_feature_x", .bool true)]),
   ("cloud_secrets", .dict [("sample_domain", .dict [("api_key", .str "sk-1234567890abcdef")])]),
   ("log_level", .int 5)]

/-- `goodConfig` with the database port set to the boolean `true`. -/
def boolPortConfig : Value := .dict
  [("cloud_details", .dict [("sample_domain", .dict [("provider", .str "aws")])]),
   ("database_details", .dict [("sample_domain", .dict [("port", .bool true)])]),
   ("model_type", .str "gpt-like"),
   ("features", .dict [("enable_feature_x", .bool true)]),
   ("cloud_secrets", .dict [("sample_domain", .dict [("api_key", .str "sk-1234567890abcdef")])])]

/-!  Theorems settling the claims.  -/

/-- Sequencing in `Except`: a failing statement aborts the rest. -/
theorem seq_err {α : Type} (x : Except PyErr Unit) (f : Unit → Except PyErr α)
    (e : PyErr) (h : x = .error e) : (x >>= f) = .error e := by
  rw [h]; rfl

/-- Sequencing in `Except`: a passing statement continues with the rest. -/
theorem seq_ok {α : Type} (x : Except PyErr Unit) (f : Unit → Except PyErr α)
    (h : x = .ok ()) : (x >>= f) = f () := by
  rw [h]; rfl

/-- An attribute chain succeeds with `w` exactly when the path resolves to
`w`. -/
theorem attr_chain_ok (path : List String) (v w : Value) :
    attr_chain v path = .ok w ↔ getPath v path = some w := by
  induction path generalizing v with
  | nil => simp [attr_chain, getPath]
  | cons key rest ih =>
      cases h : v.attr key with
      | none => simp [attr_chain, getPath, h]
      | some u => simp [attr_chain, getPath, h, ih]

/-- A `type_check` whose path resolves reduces to the predicate test. -/
theorem type_check_of_path (cfg : Value) (path : List String)
    (pred : Value → Bool) (emsg : String) (v : Value)
    (h : getPath cfg path = some v) :
    type_check cfg path pred emsg =
      if pred v then .ok () else .error (.typeMismatch emsg) := by
  have hc := (attr_chain_ok path cfg v).2 h
  simp [type_check, hc]

/-- Claim C9, amended: the level handed to the logging sink is INFO when
`log_level` is absent, and INFO when `log_level` is a string whose
upper-cased form is not a recognized logging level name; a non-string
`log_level` value instead raises an attribute error (see the
counterexample). -/
theorem C9_default_level (cfg : Value) :
    (cfg.attr "log_level" = none → basic_config_level cfg = .ok 20) ∧
    (∀ s, cfg.attr "log_level" = some (.str s) →
      logging_level_attr (py_upper s) = none →
      basic_config_level cfg = .ok 20) := by
  constructor
  · intro h
    simp [basic_config_level, config_get, h, str_upper]
    rfl
  · intro s h hl
    simp [basic_config_level, config_get, h, str_upper, hl]

/-- Witness for C9: on the well-formed configuration `log_level` is absent
and the derived level is the INFO default. -/
theorem C9_default_level_witness :
    goodConfig.attr "log_level" = none ∧
    basic_config_level goodConfig = .ok 20 :=
  ⟨rfl, (C9_default_level goodConfig).1 rfl⟩

/-- Claim C2, amended: the API-key content check accepts exactly when the
resolved `cloud_secrets.sample_domain.api_key` entry is present, truthy
(in particular non-empty) and not the placeholder `"REPLACE_ME"`; no
minimum-length threshold is enforced, so a non-placeholder key of length
at most 10 is accepted (see the counterexample). -/
theorem C2_api_key_rule (cfg secrets : Value) (api_key : Option Value)
    (hsec : getAttr cfg "cloud_secrets" = .ok secrets)
    (hget : dictGet ((secrets.attr "sample_domain").getD (.dict []))
        "api_key" = .ok api_key) :
    check_api_key cfg = .ok () ↔
      ∃ v, api_key = some v ∧ truthy v = true ∧ isReplaceMe v = false := by
  cases api_key with
  | none => simp [check_api_key, hsec, hget]
  | some v =>
      by_cases ht : truthy v
      · by_cases hr : isReplaceMe v
        · simp [check_api_key, hsec, hget, ht, hr]
        · simp [check_api_key, hsec, hget, ht, hr]
      · simp [check_api_key, hsec, hget, ht]

/-- Witness for C2: the 5-character key `"short"` satisfies the amended
acceptance rule, so the check passes on `shortKeyConfig`. -/
theorem C2_api_key_rule_witness :
    getAttr shortKeyConfig "cloud_secrets" = .ok shortSecrets ∧
    dictGet ((shortSecrets.attr "sample_domain").getD (.dict []))
      "api_key" = .ok (some (.str "short")) ∧
    (check_api_key shortKeyConfig = .ok () ↔
      ∃ v, (some (Value.str "short")) = some v ∧
        truthy v = true ∧ isReplaceMe v = false) :=
  ⟨rfl, rfl, C2_api_key_rule shortKeyConfig shortSecrets (some (.str "short")) rfl rfl⟩

/-- Claim C1, amended: the type-check step always inspects the fields of
the fixed literal domain `sample_domain`, regardless of the supplied
domain identifier (which it never reads): it checks that
`database_details.sample_domain.port` is an integer,
`cloud_details.sample_domain.provider` is a string, and
`cloud_secrets.sample_domain.api_key` is a string, each independently,
with the first failing check reporting the field and expected type. -/
theorem C1_checks_sample_domain (cfg mt port prov fx ak : Value)
    (hmt : getPath cfg ["model_type"] = some mt)
    (hmts : isStr mt = true)
    (hport : getPath cfg ["database_details", "sample_domain", "port"] = some port)
    (hprov : getPath cfg ["cloud_details", "sample_domain", "provider"] = some prov)
    (hfx : getPath cfg ["features", "enable_feature_x"] = some fx)
    (hak : getPath cfg ["cloud_secrets", "sample_domain", "api_key"] = some ak) :
    (isInt port = false →
      validate_types cfg = .error (.typeMismatch "Database port must be an integer")) ∧
    (isInt port = true → isStr prov = false →
      validate_types cfg = .error (.typeMismatch "Provider must be a string")) ∧
    (isInt port = true → isStr prov = true → isBool fx = true → isStr ak = false →
      validate_types cfg = .error (.typeMismatch "API key must be a string")) := by
  have h1 := type_check_of_path cfg ["model_type"] isStr
    "model_type must be a string" mt hmt
  have h2 := type_check_of_path cfg ["database_details", "sample_domain", "port"]
    isInt "Database port must be an integer" port hport
  have h3 := type_check_of_path cfg ["cloud_details", "sample_domain", "provider"]
    isStr "Provider must be a string" prov hprov
  have h4 := type_check_of_path cfg ["features", "enable_feature_x"] isBool
    "Feature flag must be a boolean" fx hfx
  have h5 := type_check_of_path cfg ["cloud_secrets", "sample_domain", "api_key"]
    isStr "API key must be a string" ak hak
  simp only [hmts, if_true] at h1
  refine ⟨?_, ?_, ?_⟩
  · intro hp
    simp only [hp, Bool.false_eq_true, if_false] at h2
    unfold validate_types
    rw [seq_ok _ _ h1, seq_err _ _ _ h2]
  · intro hp hpr
    simp only [hp, if_true] at h2
    simp only [hpr, Bool.false_eq_true, if_false] at h3
    unfold validate_types
    rw [seq_ok _ _ h1, seq_ok _ _ h2, seq_err _ _ _ h3]
  · intro hp hpr hb hs
    simp only [hp, if_true] at h2
    simp only [hpr, if_true] at h3
    simp only [hb, if_true] at h4
    simp only [hs, Bool.false_eq_true, if_false] at h5
    unfold validate_types
    rw [seq_ok _ _ h1, seq_ok _ _ h2, seq_ok _ _ h3, seq_ok _ _ h4, h5]

/-- Witness for C1 (amended): on `badPortConfig`, whose
`database_details.sample_domain.port` is the string `"5432"`, the type
step fails naming the database-port field and the integer type. -/
theorem C1_checks_sample_domain_witness :
    getPath badPortConfig ["model_type"] = some (.str "gpt-like") ∧
    isStr (.str "gpt-like") = true ∧
    getPath badPortConfig ["database_details", "sample_domain", "port"] =
      some (.str "5432") ∧
    getPath badPortConfig ["cloud_details", "sample_domain", "provider"] =
      some (.str "aws") ∧
    getPath badPortConfig ["features", "enable_feature_x"] = some (.bool true) ∧
    getPath badPortConfig ["cloud_secrets", "sample_domain", "api_key"] =
      some (.str "sk-1234567890abcdef") ∧
    isInt (.str "5432") = false ∧
    validate_types badPortConfig =
      .error (.typeMismatch "Database port must be an integer") :=
  ⟨rfl, rfl, rfl, rfl, rfl, rfl, rfl,
    (C1_checks_sample_domain badPortConfig (.str "gpt-like") (.str "5432")
      (.str "aws") (.bool true) (.str "sk-1234567890abcdef")
      rfl rfl rfl rfl rfl rfl).1 rfl⟩

/-- Claim C7: on the well-formed configuration (`model_type = "gpt-like"`,
`features.enable_feature_x = true`, `database_details.sample_domain.port =
5432`, `cloud_details.sample_domain.provider = "aws"`,
`cloud_secrets.sample_domain.api_key = "sk-1234567890abcdef"`), with the
secrets file present and domain `"sample_domain"`, validation succeeds and
the summary carries provider `"aws"`, model type `"gpt-like"` and feature
flag `true`. -/
theorem C7_end_to_end_success :
    validate goodState =
      .ok ⟨.str "aws", .str "gpt-like", .bool true, .str "sk-1234567890abcdef"⟩ :=
  rfl

/-- Claim C10: a boolean-valued database port passes the integer type
check, because the `isinstance`-against-`int` test accepts Python booleans
(a subclass of `int`); the whole validation accepts the configuration. -/
theorem C10_bool_port_accepted :
    isInt (Value.bool true) = true ∧
    validate ⟨"sample_domain", boolPortConfig, true⟩ =
      .ok ⟨.str "aws", .str "gpt-like", .bool true, .str "sk-1234567890abcdef"⟩ :=
  ⟨rfl, rfl⟩

/-- Claim C1, counterexample: the type-check step does NOT inspect the
fields of the supplied domain.  With domain `"other"`, whose
`database_details.other.port` is the string `"not-a-port"`, the type
checks (and the whole validation) succeed, because the source reads the
fixed literal `sample_domain`, not the supplied domain. -/
theorem C1_fixed_literal_counterexample :
    getPath otherDomainConfig ["database_details", "other", "port"] =
      some (.str "not-a-port") ∧
    isInt (Value.str "not-a-port") = false ∧
    validate_types otherDomainConfig = .ok () ∧
    validate ⟨"other", otherDomainConfig, true⟩ =
      .ok ⟨.str "aws", .str "gpt-like", .bool true, .str "sk-1234567890abcdef"⟩ :=
  ⟨rfl, rfl, rfl, rfl⟩

/-- Claim C2, counterexample: an API key of length 5 (`"short"`, non-empty
and not the placeholder) is ACCEPTED: the source's API-key check has no
length threshold, so the whole validation succeeds. -/
theorem C2_short_key_counterexample :
    ("short").length ≤ 10 ∧
    "short" ≠ "REPLACE_ME" ∧
    validate ⟨"sample_domain", shortKeyConfig, true⟩ =
      .ok ⟨.str "aws", .str "gpt-like", .bool true, .str "short"⟩ :=
  ⟨by decide, by decide, rfl⟩

/-- Claim C9, counterexample: a non-string `log_level` value (the integer
5, which is not a recognized level name) does not yield the INFO default:
the source calls `.upper()` on it and an `AttributeError` is raised
instead. -/
theorem C9_nonstring_level_counterexample :
    intLogLevelConfig.attr "log_level" = some (.int 5) ∧
    basic_config_level intLogLevelConfig = .error (.attributeError "upper") ∧
    ¬ basic_config_level intLogLevelConfig = .ok 20 :=
  ⟨rfl, rfl, fun h => Except.noConfusion h⟩

/-- Claim C5: the domain-mapping check computes the database domain keys
minus the cloud domain keys and fails exactly when that difference is
non-empty, reporting exactly the offending keys (membership in the
reported set is membership in the database keys but not the cloud keys);
when the database domains are a subset of the cloud domains the check
passes. -/
theorem C5_domain_mapping (cfg cd dd : Value) (cks dks : List String)
    (hcd : getAttr cfg "cloud_details" = .ok cd)
    (hck : to_dict_keys cd = .ok cks)
    (hdd : getAttr cfg "database_details" = .ok dd)
    (hdk : to_dict_keys dd = .ok dks) :
    (check_domain_mappings cfg = .ok () ↔ missing_in_cloud dks cks = []) ∧
    (missing_in_cloud dks cks ≠ [] →
      check_domain_mappings cfg =
        .error (.domainMapping (missing_in_cloud dks cks))) ∧
    (∀ x, x ∈ missing_in_cloud dks cks ↔ x ∈ dks ∧ x ∉ cks) ∧
    (missing_in_cloud dks cks = [] ↔ ∀ x ∈ dks, x ∈ cks) := by
  have hrw : check_domain_mappings cfg =
      if (missing_in_cloud dks cks).isEmpty then .ok ()
      else .error (.domainMapping (missing_in_cloud dks cks)) := by
    simp [check_domain_mappings, hcd, hck, hdd, hdk]
  refine ⟨?_, ?_, ?_, ?_⟩
  · rw [hrw]
    by_cases h : missing_in_cloud dks cks = []
    · simp [h]
    · simp [h, List.isEmpty_iff]
  · intro h
    rw [hrw]
    simp [List.isEmpty_iff, h]
  · intro x
    simp [missing_in_cloud, List.mem_filter]
  · simp [missing_in_cloud, List.filter_eq_nil_iff]

/-- Witness for C5: on `extraDomainConfig` (database domains
`sample_domain` and `extra_domain`, cloud domain `sample_domain` only) the
check fails reporting exactly `extra_domain`. -/
theorem C5_domain_mapping_witness :
    getAttr extraDomainConfig "cloud_details" = .ok sampleOnlyCloudDetails ∧
    to_dict_keys sampleOnlyCloudDetails = .ok ["sample_domain"] ∧
    getAttr extraDomainConfig "database_details" = .ok extraDbDetails ∧
    to_dict_keys extraDbDetails = .ok ["sample_domain", "extra_domain"] ∧
    check_domain_mappings extraDomainConfig =
      .error (.domainMapping (missing_in_cloud
        ["sample_domain", "extra_domain"] ["sample_domain"])) ∧
    missing_in_cloud ["sample_domain", "extra_domain"] ["sample_domain"] =
      ["extra_domain"] :=
  ⟨rfl, rfl, rfl, rfl,
    (C5_domain_mapping extraDomainConfig sampleOnlyCloudDetails extraDbDetails
      ["sample_domain"] ["sample_domain", "extra_domain"]
      rfl rfl rfl rfl).2.1 (by decide),
    by decide⟩

/-- The required-key loop passes exactly when every key is present. -/
theorem firstMissing_eq_none (ks : List String) (cfg : Value) :
    firstMissing ks cfg = none ↔ ∀ k ∈ ks, hasattr cfg k = true := by
  induction ks with
  | nil => simp [firstMissing]
  | cons k rest ih =>
      by_cases h : hasattr cfg k = true
      · simp [firstMissing, h, ih]
      · simp [firstMissing, h]

/-- The required-key loop reports a key of the list that is absent. -/
theorem firstMissing_eq_some (ks : List String) (cfg : Value) (m : String)
    (h : firstMissing ks cfg = some m) :
    m ∈ ks ∧ hasattr cfg m = false := by
  induction ks with
  | nil => simp [firstMissing] at h
  | cons k rest ih =>
      by_cases hk : hasattr cfg k = true
      · rw [firstMissing, if_pos hk] at h
        have := ih h
        exact ⟨List.mem_cons_of_mem _ this.1, this.2⟩
      · rw [firstMissing, if_neg hk] at h
        cases h
        exact ⟨List.mem_cons_self _ _, Bool.eq_false_iff.2 hk⟩

/-- Claim C6: when some key of the Required Key Set (`cloud_details`,
`database_details`, `model_type`, `features`, `cloud_secrets`) is absent
at top level, validation fails with a missing-key error naming an absent
required key; when all five are present the required-key check passes. -/
theorem C6_required_keys (st : ConfigManagerState) :
    ((∀ k ∈ required_keys, hasattr st.config k = true) →
      validate_required_keys st.config = .ok ()) ∧
    ((∃ k ∈ required_keys, hasattr st.config k = false) →
      ∃ m ∈ required_keys, hasattr st.config m = false ∧
        validate st = .error (.missingKey m)) := by
  constructor
  · intro h
    unfold validate_required_keys
    rw [(firstMissing_eq_none required_keys st.config).2 h]
  · rintro ⟨k, hk, hmiss⟩
    cases hfm : firstMissing required_keys st.config with
    | none =>
        have := (firstMissing_eq_none required_keys st.config).1 hfm k hk
        rw [this] at hmiss
        cases hmiss
    | some m =>
        obtain ⟨hm1, hm2⟩ := firstMissing_eq_some required_keys st.config m hfm
        refine ⟨m, hm1, hm2, ?_⟩
        have hreq : validate_required_keys st.config = .error (.missingKey m) := by
          unfold validate_required_keys
          rw [hfm]
        unfold validate
        rw [seq_err _ _ _ hreq]

/-- Witness for C6: the configuration missing `cloud_secrets` fails with
the missing-key error naming it. -/
theorem C6_required_keys_witness :
    (∃ k ∈ required_keys, hasattr missingSecretsConfig k = false) ∧
    (∃ m ∈ required_keys, hasattr missingSecretsConfig m = false ∧
      validate ⟨"sample_domain", missingSecretsConfig, true⟩ =
        .error (.missingKey m)) :=
  ⟨⟨"cloud_secrets", by decide, by decide⟩,
    (C6_required_keys ⟨"sample_domain", missingSecretsConfig, true⟩).2
      ⟨"cloud_secrets", by decide, by decide⟩⟩

/-- Claim C4, counterexample: the six invariant violations are not
pairwise distinguishable error kinds: a missing required key and an
invalid API key both raise the host class `ValueError`. -/
theorem C4_same_class_counterexample :
    validate ⟨"sample_domain", missingSecretsConfig, true⟩ =
      .error (.missingKey "cloud_secrets") ∧
    validate ⟨"sample_domain", placeholderConfig, true⟩ =
      .error .invalidSecret ∧
    PyErr.cls (.missingKey "cloud_secrets") = ExcClass.valueError ∧
    PyErr.cls .invalidSecret = ExcClass.valueError :=
  ⟨rfl, rfl, rfl, rfl⟩

/-- Claim C4, amended: each of the six invariant violations raises an
error whose message is distinct per invariant and names the involved key,
domain, path or offending key set, but the violations map to only three
host exception classes — `ValueError` for missing keys, invalid secrets,
domain-mapping mismatches and unknown domains, `TypeError` for type
mismatches, `FileNotFoundError` for the missing secrets file — and
type-mismatch messages carry the expected type only, not the actual
type. -/
theorem C4_error_taxonomy :
    (validate ⟨"sample_domain", missingSecretsConfig, true⟩ =
        .error (.missingKey "cloud_secrets") ∧
      validate ⟨"sample_domain", badPortConfig, true⟩ =
        .error (.typeMismatch "Database port must be an integer") ∧
      validate ⟨"sample_domain", placeholderConfig, true⟩ =
        .error .invalidSecret ∧
      validate ⟨"sample_domain", goodConfig, false⟩ =
        .error (.missingFile secrets_path) ∧
      validate ⟨"sample_domain", extraDomainConfig, true⟩ =
        .error (.domainMapping ["extra_domain"]) ∧
      validate ⟨"ghost_domain", goodConfig, true⟩ =
        .error (.unknownDomain "ghost_domain")) ∧
    List.Pairwise (fun a b => a ≠ b)
      ([PyErr.missingKey "cloud_secrets",
        .typeMismatch "Database port must be an integer",
        .invalidSecret,
        .missingFile secrets_path,
        .domainMapping ["extra_domain"],
        .unknownDomain "ghost_domain"].map PyErr.msg) ∧
    [PyErr.missingKey "cloud_secrets",
      .typeMismatch "Database port must be an integer",
      .invalidSecret,
      .missingFile secrets_path,
      .domainMapping ["extra_domain"],
      .unknownDomain "ghost_domain"].map PyErr.cls =
      [ExcClass.valueError, .typeError, .valueError,
       .fileNotFoundError, .valueError, .valueError] ∧
    PyErr.msg (.missingKey "cloud_secrets") =
      "Missing required config key: cloud_secrets" ∧
    PyErr.msg (.unknownDomain "ghost_domain") =
      "No DB config for domain: ghost_domain" ∧
    PyErr.msg (.domainMapping ["extra_domain"]) =
      "Domains in DB config missing in cloud config: extra_domain" ∧
    PyErr.msg (.typeMismatch "Database port must be an integer") =
      "Database port must be an integer" :=
  ⟨⟨rfl, rfl, rfl, rfl, rfl, rfl⟩, by decide, rfl, rfl, rfl, rfl, rfl⟩

/-- A failing check heads the failure scan with its own error. -/
theorem firstFailure_cons_err (e : PyErr) (rest : List (Except PyErr Unit)) :
    firstFailure (.error e :: rest) = some e := rfl

/-- A passing check is skipped by the failure scan. -/
theorem firstFailure_cons_ok (rest : List (Except PyErr Unit)) :
    firstFailure (.ok () :: rest) = firstFailure rest := rfl

/-- An empty check list has no failure. -/
theorem firstFailure_nil : firstFailure [] = none := rfl

/-- Binding a failed `Except` computation short-circuits. -/
theorem err_bind {α : Type} (e : PyErr) (f : Unit → Except PyErr α) :
    ((Except.error e : Except PyErr Unit) >>= f) = .error e := rfl

/-- Binding a successful `Except` computation continues. -/
theorem ok_bind {α : Type} (f : Unit → Except PyErr α) :
    ((Except.ok () : Except PyErr Unit) >>= f) = f () := rfl

/-- Claim C3: validation runs required-key presence, type checks, API-key
content, secrets-file existence, domain-mapping consistency and domain
presence in this fixed order; the result is the error of the earliest
failing check in that order (later checks are never consulted), and when
all six pass, validation proceeds to the summary-logging step followed by
the configuration read-out. -/
theorem C3_check_order (st : ConfigManagerState) (e : PyErr) :
    (firstFailure (checksInOrder st) = some e → validate st = .error e) ∧
    (firstFailure (checksInOrder st) = none →
      validate st =
        (log_loaded_config st.config >>= fun _ => read_config st.config)) := by
  unfold checksInOrder validate
  cases h1 : validate_required_keys st.config with
  | error e1 =>
      rw [firstFailure_cons_err, err_bind]
      exact ⟨fun hf => congrArg Except.error (Option.some.inj hf),
            fun hf => Option.noConfusion hf⟩
  | ok u1 =>
      cases u1
      rw [firstFailure_cons_ok, ok_bind]
      cases h2 : validate_types st.config with
      | error e2 =>
          rw [firstFailure_cons_err, err_bind]
          exact ⟨fun hf => congrArg Except.error (Option.some.inj hf),
            fun hf => Option.noConfusion hf⟩
      | ok u2 =>
          cases u2
          rw [firstFailure_cons_ok, ok_bind]
          cases h3 : check_api_key st.config with
          | error e3 =>
              rw [firstFailure_cons_err, err_bind]
              exact ⟨fun hf => congrArg Except.error (Option.some.inj hf),
            fun hf => Option.noConfusion hf⟩
          | ok u3 =>
              cases u3
              rw [firstFailure_cons_ok, ok_bind]
              cases h4 : check_secrets_file st.secretsFileExists with
              | error e4 =>
                  rw [firstFailure_cons_err, err_bind]
                  exact ⟨fun hf => congrArg Except.error (Option.some.inj hf),
                    fun hf => Option.noConfusion hf⟩
              | ok u4 =>
                  cases u4
                  rw [firstFailure_cons_ok, ok_bind]
                  cases h5 : check_domain_mappings st.config with
                  | error e5 =>
                      rw [firstFailure_cons_err, err_bind]
                      exact ⟨fun hf => congrArg Except.error (Option.some.inj hf),
                        fun hf => Option.noConfusion hf⟩
                  | ok u5 =>
                      cases u5
                      rw [firstFailure_cons_ok, ok_bind]
                      cases h6 : check_domain_config st.config st.domain_name with
                      | error e6 =>
                          rw [firstFailure_cons_err, err_bind]
                          exact ⟨fun hf => congrArg Except.error (Option.some.inj hf),
                            fun hf => Option.noConfusion hf⟩
                      | ok u6 =>
                          cases u6
                          rw [firstFailure_cons_ok, ok_bind, firstFailure_nil]
                          exact ⟨fun hf => Option.noConfusion hf, fun _ => rfl⟩

/-- Witness for C3: on the placeholder-API-key configuration the earliest
failing check is the third (API-key content), and validation reports
exactly its error. -/
theorem C3_check_order_witness :
    firstFailure (checksInOrder ⟨"sample_domain", placeholderConfig, true⟩) =
      some .invalidSecret ∧
    validate ⟨"sample_domain", placeholderConfig, true⟩ =
      .error .invalidSecret :=
  ⟨rfl, (C3_check_order ⟨"sample_domain", placeholderConfig, true⟩
    .invalidSecret).1 rfl⟩

/-- Claim C8: validation is a deterministic function of the configuration
snapshot (merged configuration and secrets-file presence) and the domain
identifier: two runs over equal snapshots yield the same result. -/
theorem C8_validation_deterministic (s1 s2 : ConfigManagerState)
    (hdom : s1.domain_name = s2.domain_name)
    (hcfg : s1.config = s2.config)
    (hfile : s1.secretsFileExists = s2.secretsFileExists) :
    validate s1 = validate s2 := by
  cases s1
  cases s2
  simp only at hdom hcfg hfile
  rw [hdom, hcfg, hfile]

/-- Witness for C8: two runs on the well-formed scenario agree. -/
theorem C8_validation_deterministic_witness :
    goodState.domain_name = goodState.domain_name ∧
    goodState.config = goodState.config ∧
    goodState.secretsFileExists = goodState.secretsFileExists ∧
    validate goodState = validate goodState :=
  ⟨rfl, rfl, rfl, C8_validation_deterministic goodState goodState rfl rfl rfl⟩

end ConfigManagerModel
